import Mathlib

/-!
Shallow embedding of the `commit-gen` CLI (src/index.js and the two script
variants in src/unnamed/part_000): change collection, provider-response
normalization, interactive confirmation and commit execution.

JavaScript strings are modelled as `List Char` (`JStr`); `process.env`
values as `Option JStr` (`none` = unset variable); the outcome of the one
outbound provider call as an `Except`/`Option` parameter; the observable
behaviour of a run as an explicit trace structure.
-/

/-- JavaScript string, modelled as a list of characters. -/
abbrev JStr := List Char

/-- Whitespace predicate used by JavaScript `String.prototype.trim`
(restricted to the ASCII whitespace characters, which are the only ones the
claims exercise). -/
def jsIsWs (c : Char) : Bool :=
  c == ' ' || c == '\n' || c == '\t' || c == '\r' || c == '\x0b' || c == '\x0c'

/-- JavaScript `s.trim()`: drop whitespace from both ends. -/
def jsTrim (s : JStr) : JStr :=
  ((s.dropWhile jsIsWs).reverse.dropWhile jsIsWs).reverse

/-- JavaScript `s.toLowerCase()` (ASCII case folding, as in `Char.toLower`). -/
def jsToLower (s : JStr) : JStr := s.map Char.toLower

/-- JavaScript `Array.prototype.join(sep)`. -/
def jsJoin (sep : JStr) : List JStr → JStr
  | [] => []
  | [p] => p
  | p :: ps => p ++ sep ++ jsJoin sep ps

/-- Helper for `jsSplitNl`: prepend a character to the first piece of a
split result. -/
def consHead (c : Char) : List JStr → List JStr
  | [] => [[c]]
  | p :: ps => (c :: p) :: ps

/-- JavaScript `s.split("\n")`: every occurrence of the newline separates
pieces, empty pieces included; the empty string splits to `[""]`. -/
def jsSplitNl : JStr → List JStr
  | [] => [[]]
  | c :: cs => if c = '\n' then [] :: jsSplitNl cs else consHead c (jsSplitNl cs)

/-- One entry of the `newFiles` array built in `getGitChanges` (and in the
`g` action of src/index.js): the mapper over `status.not_added` reads the
file (`some content`) or fails (`none`) and renders
`New file: <path>\n<content>` resp. the placeholder
`New file: <path>\n(Content not available)`. -/
def newFileEntry : JStr × Option JStr → JStr
  | (file, some content) => ("New file: ").data ++ file ++ ("\n").data ++ content
  | (file, none) => ("New file: ").data ++ file ++ ("\n(Content not available)").data

/-- Whether the mapper over `status.not_added` emitted the
`Unable to read file` warning for this entry (it does exactly on the read
failure branch, and the map over the remaining files continues). -/
def newFileWarned : JStr × Option JStr → Bool
  | (_, some _) => false
  | (_, none) => true

/-- `getGitChanges` (src/unnamed/part_000; identically inlined in
src/index.js): `diff + "\n" + newFiles.join("\n")`, where `diff` is the
tracked diff and `files` pairs each untracked path with its content or
`none` for a read failure. -/
def getGitChanges (diff : JStr) (files : List (JStr × Option JStr)) : JStr :=
  diff ++ ("\n").data ++ jsJoin (("\n").data) (files.map newFileEntry)

/-- The provider selected by the CLI subcommand (`gr`, `ge`, `ds`). -/
inductive Model
  | groq
  | gemini
  | deepseek
deriving DecidableEq

/-- The deepseek-branch response cleanup: the literal backtick character
used by the fence marker. -/
def btick : Char := Char.ofNat 96

/-- Whether the string starts with a triple-backtick fence marker. -/
def isFenceAt : JStr → Bool
  | a :: b :: c :: _ => a == btick && b == btick && c == btick
  | _ => false

/-- Scan for the next triple-backtick fence; on success return the suffix
after it (the closing fence of a lazily matched `/(3 backticks)[\s\S]*?(3 backticks)/`
occurrence), scanning left to right. -/
def findClose : JStr → Option JStr
  | [] => none
  | c :: cs => if isFenceAt (c :: cs) then some (cs.drop 2) else findClose cs

/-- Fuel-driven worker for `removeCodeBlocks`; each step consumes at least
one character of the input, so fuel equal to the input length suffices. -/
def removeCodeBlocksFuel : Nat → JStr → JStr
  | 0, s => s
  | _ + 1, [] => []
  | fuel + 1, c :: cs =>
    if isFenceAt (c :: cs) then
      match findClose (cs.drop 2) with
      | some rest => removeCodeBlocksFuel fuel rest
      | none => c :: removeCodeBlocksFuel fuel cs
    else c :: removeCodeBlocksFuel fuel cs

/-- `message.replace(/(3 backticks)[\s\S]*?(3 backticks)/g, "")` from the
deepseek branch of `generateCommitMessage`: each lazily matched fenced code
block — opening fence, shortest enclosed content, closing fence — is deleted
whole; an opening fence with no closing fence is left in place. -/
def removeCodeBlocks (s : JStr) : JStr := removeCodeBlocksFuel s.length s

/-- The deepseek branch cleanup of `generateCommitMessage`: remove fenced
code blocks, then `trim()`. -/
def deepseekClean (s : JStr) : JStr := jsTrim (removeCodeBlocks s)

/-- Return value of `generateCommitMessage` (src/unnamed/part_000) as a
function of the provider's response content. `content` is
`choices[0]?.message?.content` for the chat providers (`none` when the
envelope has no message content) and the `response.text()` result for
gemini (the SDK accessor yields the empty string when no text is present,
modelled as `none`/`some []`); the groq and gemini branches return the text
unchanged (groq via `|| ""`), the deepseek branch applies the cleanup. -/
def generateCommitMessage (m : Model) (content : Option JStr) : JStr :=
  match m with
  | Model.groq => content.getD []
  | Model.gemini => content.getD []
  | Model.deepseek => deepseekClean (content.getD [])

/-- The confirmation check `answer.toLowerCase() === "y"` from
`commitWithMessage` (and the `g` action of src/index.js). The answer is
lower-cased but not trimmed. -/
def confirmAnswerIsYes (answer : JStr) : Bool :=
  jsToLower answer == ("y").data

/-- Message storage performed by the external `git commit -m a -m b ...`
call issued by `commitWithMessage`. Git is an external collaborator
(spec section 6); per its documented `-m` semantics, multiple `-m` values are
concatenated as separate paragraphs, i.e. joined with a blank line. The
model assumes shell-safe lines (the source interpolates each line into a
double-quoted shell word) and omits the terminal newline git appends. -/
def gitStoredMessage (msgParts : List JStr) : JStr :=
  jsJoin (("\n\n").data) msgParts

/-- Terminal report of a run, one per `console.log`/`console.error`
terminal branch of the pipeline. -/
inductive Report
  | noChanges
  | providerError
  | success
  | commitError
  | cancelled
  | inputError
deriving DecidableEq

/-- Observable outcome of `commitWithMessage`: whether `git add .` ran,
the stored commit message if `git commit` ran and succeeded, and the
terminal report. -/
structure CommitOutcome where
  staged : Bool
  committed : Option JStr
  report : Report
deriving DecidableEq

/-- `commitWithMessage` (src/unnamed/part_000; inlined in the `g` action of
src/index.js). `answer` is the confirmation line (`none` models an error
raised while awaiting input, caught by the catch branch); `commitOk` is the
exit status of the external `git commit` call. On an affirmative answer the
function stages all changes and commits with one `-m` per line of `msg`;
on a negative answer it mutates nothing and reports cancellation; a commit
failure is caught by the inner catch and reported. -/
def commitWithMessage (answer : Option JStr) (commitOk : Bool) (msg : JStr) :
    CommitOutcome :=
  match answer with
  | none => ⟨false, none, Report.inputError⟩
  | some a =>
    if confirmAnswerIsYes a then
      if commitOk then
        ⟨true, some (gitStoredMessage (jsSplitNl msg)), Report.success⟩
      else
        ⟨true, none, Report.commitError⟩
    else ⟨false, none, Report.cancelled⟩

/-- Observable trace of one `generateAndCommit` invocation: which providers
were dispatched to, the message displayed by
`console.log("Generated Commit Message:...")`, whether the confirmation
prompt ran, whether staging/commit happened, and the terminal report. -/
structure RunTrace where
  providersCalled : List Model
  displayed : Option JStr
  prompted : Bool
  staged : Bool
  committed : Option JStr
  report : Report
deriving DecidableEq

/-- `generateAndCommit` (src/unnamed/part_000): collect the change blob,
short-circuit on `!fullDiff`, otherwise dispatch to the selected provider
(`providerResp` is the outcome of the single outbound call: `Except.error`
models a throw, caught by the outer catch; `Except.ok content` carries the
response envelope's content), display the normalized message and run
`commitWithMessage`. The hint prompt of the three-provider variant only
feeds the prompt text and is not part of the trace. -/
def generateAndCommit (m : Model) (diff : JStr)
    (files : List (JStr × Option JStr))
    (providerResp : Except Unit (Option JStr)) (answer : Option JStr)
    (commitOk : Bool) : RunTrace :=
  if getGitChanges diff files = [] then
    ⟨[], none, false, false, none, Report.noChanges⟩
  else
    match providerResp with
    | Except.error _ => ⟨[m], none, false, false, none, Report.providerError⟩
    | Except.ok content =>
      let msg := generateCommitMessage m content
      let c := commitWithMessage answer commitOk msg
      ⟨[m], some msg, true, c.staged, c.committed, c.report⟩

/-- JavaScript truthiness of a `process.env` value: `undefined` and the
empty string are falsy. -/
def truthy : Option JStr → Bool
  | none => false
  | some s => !s.isEmpty

/-- The startup guard of src/unnamed/part_000 (three-provider variant):
`if (!GROQ_API_KEY || !GOOGLE_API_KEY || !DEEPSEEK_API_KEY) process.exit(1)`.
It runs at module load, before the subcommand is parsed, and demands every
provider's key. -/
def credsPresent (g o d : Option JStr) : Bool :=
  truthy g && truthy o && truthy d

/-- Result of one process run: the exit code and, when the startup guard
passed, the trace of the invocation (no other code path calls
`process.exit`, so a run that starts completes with status 0). -/
structure ProcessRun where
  exitCode : Nat
  ran : Option RunTrace
deriving DecidableEq

/-- Whole-process behaviour of the three-provider variant: the credential
guard, then `generateAndCommit` for the selected subcommand. -/
def runProcess (g o d : Option JStr) (m : Model) (diff : JStr)
    (files : List (JStr × Option JStr))
    (providerResp : Except Unit (Option JStr)) (answer : Option JStr)
    (commitOk : Bool) : ProcessRun :=
  if credsPresent g o d then
    ⟨0, some (generateAndCommit m diff files providerResp answer commitOk)⟩
  else ⟨1, none⟩

/-- Events on the interactive input resource (readline interfaces over
`process.stdin`). -/
inductive RlEv
  | opened
  | asked
  | closed
deriving DecidableEq

/-- Readline events of `getUserMessage` (three-provider variant): it
creates an interface, asks the hint question, and closes the interface
after the answer resolves. -/
def getUserMessageRlEvents : List RlEv :=
  [RlEv.opened, RlEv.asked, RlEv.closed]

/-- Readline events of `commitWithMessage`: it creates an interface, asks
the confirmation question inside `try`, and the `finally` clause closes the
interface on both the normal path and the caught-error path (e.g. a
`git add`/`git commit` failure inside the try body), so the event sequence
does not depend on whether the try body throws. -/
def commitWithMessageRlEvents (errored : Bool) : List RlEv :=
  if errored then [RlEv.opened, RlEv.asked, RlEv.closed]
  else [RlEv.opened, RlEv.asked, RlEv.closed]

/-- Readline events of one `generateAndCommit` invocation of the
three-provider variant: after the (unreachable-in-practice) empty-blob
short-circuit, the hint prompt of `getUserMessage` runs, and if the
provider call returns, the confirmation prompt of `commitWithMessage`
runs. -/
def generateAndCommitRlEvents (diff : JStr)
    (files : List (JStr × Option JStr)) (providerOk errored : Bool) :
    List RlEv :=
  if getGitChanges diff files = [] then []
  else
    getUserMessageRlEvents ++
      (if providerOk then commitWithMessageRlEvents errored else [])
theorem nl_data : ("\n").data = ['\n'] := rfl

theorem nlnl_data : ("\n\n").data = ['\n', '\n'] := rfl

theorem getGitChanges_length_pos (diff : JStr) (files : List (JStr × Option JStr)) :
    0 < (getGitChanges diff files).length := by
  unfold getGitChanges
  rw [List.append_assoc]
  simp only [List.length_append, nl_data, List.length_cons, List.length_nil]
  omega

theorem getGitChanges_ne_nil (diff : JStr) (files : List (JStr × Option JStr)) :
    getGitChanges diff files ≠ [] := by
  intro h
  have hp := getGitChanges_length_pos diff files
  rw [h] at hp
  exact absurd hp (by simp)

theorem jsSplitNl_ne_nil (s : JStr) : jsSplitNl s ≠ [] := by
  induction s with
  | nil => simp [jsSplitNl]
  | cons c cs ih =>
    by_cases hc : c = '\n'
    · simp [jsSplitNl, hc]
    · cases hq : jsSplitNl cs with
      | nil => exact absurd hq ih
      | cons p ps => simp [jsSplitNl, hc, hq, consHead]

theorem jsSplitNl_no_nl (s : JStr) : ∀ p ∈ jsSplitNl s, '\n' ∉ p := by
  induction s with
  | nil =>
    intro p hp
    simp [jsSplitNl] at hp
    simp [hp]
  | cons c cs ih =>
    intro p hp
    by_cases hc : c = '\n'
    · simp [jsSplitNl, hc] at hp
      rcases hp with h1 | h2
      · simp [h1]
      · exact ih p h2
    · cases hq : jsSplitNl cs with
      | nil => exact absurd hq (jsSplitNl_ne_nil cs)
      | cons q qs =>
        simp only [jsSplitNl, hc, if_false, hq, consHead] at hp
        rcases List.mem_cons.mp hp with h1 | h2
        · subst h1
          intro hmem
          rcases List.mem_cons.mp hmem with h3 | h4
          · exact hc h3.symm
          · exact ih q (hq ▸ List.mem_cons_self q qs) h4
        · exact ih p (hq ▸ List.mem_cons_of_mem q h2)

theorem jsSplitNl_of_no_nl (a : JStr) (h : '\n' ∉ a) : jsSplitNl a = [a] := by
  induction a with
  | nil => rfl
  | cons c cs ih =>
    have hc : c ≠ '\n' := fun hh => h (hh ▸ List.mem_cons_self c cs)
    have hcs : '\n' ∉ cs := fun hh => h (List.mem_cons_of_mem c hh)
    simp [jsSplitNl, hc, ih hcs, consHead]

theorem jsSplitNl_append_nl (a r : JStr) (h : '\n' ∉ a) :
    jsSplitNl (a ++ '\n' :: r) = a :: jsSplitNl r := by
  induction a with
  | nil => simp [jsSplitNl]
  | cons c cs ih =>
    have hc : c ≠ '\n' := fun hh => h (hh ▸ List.mem_cons_self c cs)
    have hcs : '\n' ∉ cs := fun hh => h (List.mem_cons_of_mem c hh)
    simp [jsSplitNl, hc, ih hcs, consHead]

theorem jsSplitNl_join_paragraphs :
    ∀ (parts : List JStr), parts ≠ [] → (∀ p ∈ parts, '\n' ∉ p) →
      jsSplitNl (jsJoin (("\n\n").data) parts) = List.intersperse [] parts := by
  intro parts
  induction parts with
  | nil =>
    intro hne _
    exact absurd rfl hne
  | cons p rest ih =>
    intro _ h
    cases rest with
    | nil =>
      simp only [jsJoin, List.intersperse]
      exact jsSplitNl_of_no_nl p (h p (List.mem_cons_self p []))
    | cons q rest2 =>
      have hp : '\n' ∉ p := h p (List.mem_cons_self _ _)
      have hrest : ∀ x ∈ q :: rest2, '\n' ∉ x :=
        fun x hx => h x (List.mem_cons_of_mem p hx)
      have hjoin : jsJoin (("\n\n").data) (p :: q :: rest2)
          = p ++ '\n' :: '\n' :: jsJoin (("\n\n").data) (q :: rest2) := by
        rw [nlnl_data]
        simp [jsJoin, List.append_assoc]
      rw [hjoin, jsSplitNl_append_nl p _ hp]
      have h2 : jsSplitNl ('\n' :: jsJoin (("\n\n").data) (q :: rest2))
          = [] :: jsSplitNl (jsJoin (("\n\n").data) (q :: rest2)) := by
        simp [jsSplitNl]
      rw [h2, ih (by simp) hrest]
      rfl

theorem jsJoin_mem_split (sep : JStr) :
    ∀ (xs : List JStr) (e : JStr), e ∈ xs →
      ∃ u v, jsJoin sep xs = u ++ e ++ v := by
  intro xs
  induction xs with
  | nil =>
    intro e he
    exact absurd he (List.not_mem_nil e)
  | cons x rest ih =>
    intro e he
    cases rest with
    | nil =>
      have hx : e = x := by simpa using he
      exact ⟨[], [], by simp [jsJoin, hx]⟩
    | cons y rest2 =>
      rcases List.mem_cons.mp he with h1 | h2
      · exact ⟨[], sep ++ jsJoin sep (y :: rest2),
          by simp [jsJoin, h1, List.append_assoc]⟩
      · rcases ih e h2 with ⟨u, v, hu⟩
        exact ⟨x ++ sep ++ u, v, by simp [jsJoin, hu, List.append_assoc]⟩

theorem getGitChanges_contains_entry (diff : JStr)
    (files : List (JStr × Option JStr)) (f : JStr)
    (hmem : (f, none) ∈ files) :
    ∃ u v, getGitChanges diff files
      = u ++ (("New file: ").data ++ f ++ ("\n(Content not available)").data) ++ v := by
  have hmem2 : newFileEntry (f, none) ∈ files.map newFileEntry :=
    List.mem_map_of_mem newFileEntry hmem
  rcases jsJoin_mem_split (("\n").data) (files.map newFileEntry) _ hmem2 with ⟨u, v, hu⟩
  refine ⟨diff ++ ("\n").data ++ u, v, ?_⟩
  simp [getGitChanges, hu, newFileEntry, List.append_assoc]

/-- Claim C1 (code bug): the spec requires that a change blob that is empty
after trimming makes the pipeline report "no changes" before any provider
call, but the collected blob `diff + "\n" + newFiles.join("\n")` always
contains the hard-coded newline, so it is never the empty string, the
`!fullDiff` guard is unreachable, and a clean repository (empty tracked
diff, no untracked files) — whose blob trims to empty — still dispatches to
the provider instead of reporting "no changes". -/
theorem noChangesGuardUnreachable :
    jsTrim (getGitChanges [] []) = []
    ∧ getGitChanges [] [] = ['\n']
    ∧ (∀ (diff : JStr) (files : List (JStr × Option JStr)),
        0 < (getGitChanges diff files).length)
    ∧ (generateAndCommit Model.groq [] []
        (Except.ok (some (("feat: x").data))) (some (("n").data)) true).providersCalled
      = [Model.groq]
    ∧ (generateAndCommit Model.groq [] []
        (Except.ok (some (("feat: x").data))) (some (("n").data)) true).report
      = Report.cancelled :=
  ⟨by decide, by decide, getGitChanges_length_pos, by decide, by decide⟩

/-- Claim C2, counterexample: the two-line message "a\nb" is passed to git
as two `-m` arguments; git stores them as two paragraphs "a\n\nb", whose
split on line breaks has three lines, not the original two — the
split-then-commit round trip is not the identity on the line sequence. -/
theorem commitRoundTripCounterexample :
    jsSplitNl (("a\nb").data) = [("a").data, ("b").data]
    ∧ (commitWithMessage (some (("y").data)) true (("a\nb").data)).committed
      = some (("a\n\nb").data)
    ∧ jsSplitNl (("a\n\nb").data) = [("a").data, [], ("b").data]
    ∧ (jsSplitNl (("a\n\nb").data) == jsSplitNl (("a\nb").data)) = false := by
  decide

/-- Claim C2, amended: after an affirmative confirmation the Commit
Executor commits with one `-m` per input line, so the stored message,
split on line breaks, yields the input lines in order with a single empty
line inserted between consecutive lines (the input lines survive as
distinct paragraphs; the sequence is unchanged only for one-line
messages). -/
theorem commitRoundTripParagraphs (msg ans : JStr)
    (h : confirmAnswerIsYes ans = true) :
    (commitWithMessage (some ans) true msg).committed
      = some (gitStoredMessage (jsSplitNl msg))
    ∧ jsSplitNl (gitStoredMessage (jsSplitNl msg))
      = List.intersperse [] (jsSplitNl msg) := by
  constructor
  · simp [commitWithMessage, h]
  · unfold gitStoredMessage
    exact jsSplitNl_join_paragraphs (jsSplitNl msg) (jsSplitNl_ne_nil msg)
      (jsSplitNl_no_nl msg)

/-- Witness for the amended C2 theorem at the message "a\nb" and the
affirmative answer "y". -/
theorem commitRoundTripParagraphsWitness :
    (commitWithMessage (some (("y").data)) true (("a\nb").data)).committed
      = some (gitStoredMessage (jsSplitNl (("a\nb").data)))
    ∧ jsSplitNl (gitStoredMessage (jsSplitNl (("a\nb").data)))
      = List.intersperse [] (jsSplitNl (("a\nb").data)) :=
  commitRoundTripParagraphs (("a\nb").data) (("y").data) (by decide)

/-- Claim C3, counterexample: the code compares `answer.toLowerCase()`
without trimming, so the input "Y" yields an affirmative decision (the
claim lists it as negative), and the inputs " y " and "Y" — identical after
trimming and lower-casing — yield different decisions, so the decision is
not a function of the trimmed lower-cased line. -/
theorem confirmationNotTrimmedCounterexample :
    confirmAnswerIsYes (("Y").data) = true
    ∧ confirmAnswerIsYes ((" y ").data) = false
    ∧ jsToLower (jsTrim ((" y ").data)) = jsToLower (jsTrim (("Y").data)) := by
  decide

/-- Claim C3, amended: the ConfirmationDecision is a pure function of the
lower-cased (untrimmed) operator input line, true exactly for the inputs
that lower-case to "y": "Y" and "y" yield true; " y ", "yes", "n" and the
empty string yield false, with no re-prompt for a negative input. -/
theorem confirmationLowercaseFunction :
    (∀ a b : JStr, jsToLower a = jsToLower b →
      confirmAnswerIsYes a = confirmAnswerIsYes b)
    ∧ confirmAnswerIsYes (("y").data) = true
    ∧ confirmAnswerIsYes (("Y").data) = true
    ∧ confirmAnswerIsYes ((" y ").data) = false
    ∧ confirmAnswerIsYes (("yes").data) = false
    ∧ confirmAnswerIsYes (("n").data) = false
    ∧ confirmAnswerIsYes [] = false :=
  ⟨fun a b h => by simp [confirmAnswerIsYes, h],
   by decide, by decide, by decide, by decide, by decide, by decide⟩

/-- Witness for the amended C3 theorem: the factoring property applied to
the concrete inputs "Y" and "y", whose lower-casings agree. -/
theorem confirmationLowercaseFunctionWitness :
    confirmAnswerIsYes (("Y").data) = confirmAnswerIsYes (("y").data) :=
  confirmationLowercaseFunction.1 (("Y").data) (("y").data) (by decide)

/-- Claim C4, counterexample: the deepseek cleanup deletes each lazily
matched fenced code block whole — markers and enclosed content — so the
fully fenced response "```\nfeat: add x\n```" normalizes to the empty
string, not to "feat: add x". -/
theorem fenceStripCounterexample :
    generateCommitMessage Model.deepseek (some (("```\nfeat: add x\n```").data)) = []
    ∧ (([] : JStr) == ("feat: add x").data) = false := by
  decide

/-- Claim C4, amended: provider response normalization removes every fenced
code block entirely (fence markers together with the enclosed content) and
trims surrounding whitespace; a response wholly wrapped in a fenced block
therefore normalizes to the empty string, while unfenced content passes
through up to trimming. -/
theorem fenceRemovalAmended :
    generateCommitMessage Model.deepseek (some (("```\nfeat: add x\n```").data)) = []
    ∧ removeCodeBlocks (("```\nfeat: add x\n```").data) = []
    ∧ deepseekClean (("a ```b``` c").data) = ("a  c").data
    ∧ deepseekClean (("  feat: add x  ").data) = ("feat: add x").data
    ∧ generateCommitMessage Model.deepseek (some (("feat: add x").data))
      = ("feat: add x").data := by
  decide

/-- Claim C5, counterexample: invoking the groq subcommand with the groq
credential present but the other providers' credentials unset still exits
with status 1 and runs nothing — the startup guard demands every
provider's key, not only the invoked provider's. -/
theorem credsGuardCounterexample :
    truthy (some (("groqkey").data)) = true
    ∧ (runProcess (some (("groqkey").data)) none none Model.groq (("d").data) []
        (Except.ok none) none true).exitCode = 1
    ∧ (runProcess (some (("groqkey").data)) none none Model.groq (("d").data) []
        (Except.ok none) none true).ran = none := by
  decide

/-- Claim C5, amended: the process exits non-zero (with status 1, before
any other work) exactly when some configured provider's credential is
absent or empty at startup, regardless of which provider is invoked; when
all credentials are present the guard passes and the run completes with
exit status 0, whatever the pipeline outcome (declined commit included). -/
theorem exitCodeContract (g o d : Option JStr) (m : Model) (diff : JStr)
    (files : List (JStr × Option JStr))
    (providerResp : Except Unit (Option JStr)) (answer : Option JStr)
    (commitOk : Bool) :
    ((runProcess g o d m diff files providerResp answer commitOk).exitCode == 0)
      = credsPresent g o d
    ∧ (credsPresent g o d = false →
        runProcess g o d m diff files providerResp answer commitOk = ⟨1, none⟩)
    ∧ (credsPresent g o d = true →
        runProcess g o d m diff files providerResp answer commitOk
          = ⟨0, some (generateAndCommit m diff files providerResp answer commitOk)⟩) := by
  cases h : credsPresent g o d <;> simp [runProcess, h]

/-- Witness for the C5 amended theorem: with all keys unset the process
exits 1 without running; with all three keys set it runs and exits 0. -/
theorem exitCodeContractWitness :
    runProcess none none none Model.groq (("d").data) [] (Except.ok none) none true
      = ⟨1, none⟩
    ∧ runProcess (some (("a").data)) (some (("b").data)) (some (("c").data))
        Model.groq (("d").data) [] (Except.ok none) none true
      = ⟨0, some (generateAndCommit Model.groq (("d").data) [] (Except.ok none) none true)⟩ :=
  ⟨(exitCodeContract none none none Model.groq (("d").data) [] (Except.ok none)
      none true).2.1 (by decide),
   (exitCodeContract (some (("a").data)) (some (("b").data)) (some (("c").data))
      Model.groq (("d").data) [] (Except.ok none) none true).2.2 (by decide)⟩

/-- Claim C6: an untracked file whose content cannot be read is rendered as
the literal placeholder entry "New file: <path>\n(Content not available)",
the read-failure warning is emitted for it, the collection maps every file
to an entry (it completes rather than aborting), and the placeholder
appears verbatim inside the serialized change blob. -/
theorem unreadableFilePlaceholder (diff : JStr)
    (files : List (JStr × Option JStr)) (f : JStr)
    (hmem : (f, none) ∈ files) :
    newFileEntry (f, none)
      = ("New file: ").data ++ f ++ ("\n(Content not available)").data
    ∧ newFileWarned (f, none) = true
    ∧ (files.map newFileEntry).length = files.length
    ∧ ∃ u v, getGitChanges diff files
        = u ++ (("New file: ").data ++ f ++ ("\n(Content not available)").data) ++ v :=
  ⟨rfl, rfl, by simp, getGitChanges_contains_entry diff files f hmem⟩

/-- Witness for C6 at a one-file collection whose single untracked file
"a.txt" fails to read. -/
theorem unreadableFilePlaceholderWitness :
    newFileEntry ((("a.txt").data), none)
      = ("New file: ").data ++ ("a.txt").data ++ ("\n(Content not available)").data
    ∧ newFileWarned ((("a.txt").data), none) = true
    ∧ ([((("a.txt").data), (none : Option JStr))].map newFileEntry).length
      = [((("a.txt").data), (none : Option JStr))].length
    ∧ ∃ u v, getGitChanges (("d").data) [((("a.txt").data), none)]
        = u ++ (("New file: ").data ++ ("a.txt").data
            ++ ("\n(Content not available)").data) ++ v :=
  unreadableFilePlaceholder (("d").data) [((("a.txt").data), none)]
    (("a.txt").data) (by decide)

/-- Claim C7: on a negative confirmation (any answer whose lower-casing is
not "y") the Commit Executor neither stages nor commits anything and the
run reports cancellation and completes normally. -/
theorem negativeConfirmationNoMutation (m : Model) (diff : JStr)
    (files : List (JStr × Option JStr)) (content : Option JStr)
    (ans : JStr) (commitOk : Bool)
    (h : confirmAnswerIsYes ans = false) :
    (generateAndCommit m diff files (Except.ok content) (some ans) commitOk).staged
      = false
    ∧ (generateAndCommit m diff files (Except.ok content) (some ans) commitOk).committed
      = none
    ∧ (generateAndCommit m diff files (Except.ok content) (some ans) commitOk).report
      = Report.cancelled := by
  have hne := getGitChanges_ne_nil diff files
  simp [generateAndCommit, hne, commitWithMessage, h]

/-- Witness for C7 at the negative answer "n". -/
theorem negativeConfirmationNoMutationWitness :
    (generateAndCommit Model.groq (("d").data) []
      (Except.ok (some (("m").data))) (some (("n").data)) true).staged = false
    ∧ (generateAndCommit Model.groq (("d").data) []
        (Except.ok (some (("m").data))) (some (("n").data)) true).committed = none
    ∧ (generateAndCommit Model.groq (("d").data) []
        (Except.ok (some (("m").data))) (some (("n").data)) true).report
      = Report.cancelled :=
  negativeConfirmationNoMutation Model.groq (("d").data) [] (some (("m").data))
    (("n").data) true (by decide)

/-- Claim C8: when the single outbound provider call fails, the error is
caught at the top level and the invocation ends in the reported provider
failure state: nothing is staged or committed, the confirmation prompt
never runs, and exactly the one selected provider was attempted (the run
returns a trace instead of crashing). -/
theorem providerErrorReported (m : Model) (diff : JStr)
    (files : List (JStr × Option JStr)) (answer : Option JStr)
    (commitOk : Bool) :
    (generateAndCommit m diff files (Except.error ()) answer commitOk).report
      = Report.providerError
    ∧ (generateAndCommit m diff files (Except.error ()) answer commitOk).staged
      = false
    ∧ (generateAndCommit m diff files (Except.error ()) answer commitOk).committed
      = none
    ∧ (generateAndCommit m diff files (Except.error ()) answer commitOk).prompted
      = false
    ∧ (generateAndCommit m diff files (Except.error ()) answer commitOk).providersCalled
      = [m] := by
  have hne := getGitChanges_ne_nil diff files
  simp [generateAndCommit, hne]

/-- Claim C9, counterexample: in the hint-supporting variant a normal
successful invocation opens two readline interfaces and asks two questions
(the hint prompt of getUserMessage and the confirmation prompt of
commitWithMessage), contradicting "opened once per invocation and used by
at most one prompt in that invocation". -/
theorem twoPromptsCounterexample :
    generateAndCommitRlEvents (("d").data) [] true false
      = [RlEv.opened, RlEv.asked, RlEv.closed,
         RlEv.opened, RlEv.asked, RlEv.closed]
    ∧ (generateAndCommitRlEvents (("d").data) [] true false).count RlEv.opened = 2
    ∧ (generateAndCommitRlEvents (("d").data) [] true false).count RlEv.asked = 2 := by
  decide

/-- Claim C9, amended: each interactive prompt opens its own input
interface — up to two per invocation (hint prompt, then confirmation
prompt) — every opened interface is used by exactly one prompt and is
released before the invocation completes on every modeled exit path, and
the confirmation interface in particular is closed by its finally clause
whether or not the commit step inside the try body fails. -/
theorem rlResourcePerPrompt (diff : JStr) (files : List (JStr × Option JStr))
    (providerOk errored : Bool) :
    (generateAndCommitRlEvents diff files providerOk errored).count RlEv.asked
      = (generateAndCommitRlEvents diff files providerOk errored).count RlEv.opened
    ∧ (generateAndCommitRlEvents diff files providerOk errored).count RlEv.closed
      = (generateAndCommitRlEvents diff files providerOk errored).count RlEv.opened
    ∧ (generateAndCommitRlEvents diff files providerOk errored).count RlEv.opened ≤ 2
    ∧ commitWithMessageRlEvents errored = [RlEv.opened, RlEv.asked, RlEv.closed] := by
  have hne := getGitChanges_ne_nil diff files
  cases providerOk <;> cases errored <;>
    simp [generateAndCommitRlEvents, getUserMessageRlEvents,
      commitWithMessageRlEvents, hne]

/-- Claim C10: when the provider response envelope carries no message
content (absent or empty text field), the dispatcher returns the empty
string instead of raising a provider error, and the pipeline goes on to
display the empty message and run the confirmation prompt for a commit
with an empty message. -/
theorem emptyContentEmptyMessage (diff : JStr)
    (files : List (JStr × Option JStr)) (answer : Option JStr)
    (commitOk : Bool) :
    generateCommitMessage Model.groq none = []
    ∧ generateCommitMessage Model.deepseek none = []
    ∧ generateCommitMessage Model.groq (some []) = []
    ∧ generateCommitMessage Model.deepseek (some []) = []
    ∧ (generateAndCommit Model.groq diff files (Except.ok none) answer commitOk).displayed
      = some []
    ∧ (generateAndCommit Model.groq diff files (Except.ok none) answer commitOk).prompted
      = true
    ∧ (generateAndCommit Model.deepseek diff files (Except.ok none) answer commitOk).displayed
      = some []
    ∧ (generateAndCommit Model.deepseek diff files (Except.ok none) answer commitOk).prompted
      = true := by
  have hne := getGitChanges_ne_nil diff files
  refine ⟨by decide, by decide, by decide, by decide, ?_, ?_, ?_, ?_⟩ <;>
    simp [generateAndCommit, hne, generateCommitMessage, deepseekClean,
      removeCodeBlocks, removeCodeBlocksFuel, jsTrim]
